import Mathlib

/-!
Verification of the ntombi-gateway event-admission core (src/app.py).

The core is the `process_event` pipeline: structural validation of the
decoded JSON event (presence of `id`, `token`, `type` via Python
truthiness), legality of the `type` field, authentication against the
hardcoded credential table, and dispatch to a per-type handler that may
mutate the Device Registry (the `dispensers` table, modelled as a list
of records).  Python payload values are modelled by the fragment of
Python values the gateway inspects, with Python truthiness and `==`
semantics made explicit.
-/

/-- The fragment of Python/JSON values the gateway inspects: `None`,
integers, strings and booleans. -/
inductive PyValue where
  | none
  | int (n : Int)
  | str (s : String)
  | bool (b : Bool)
deriving DecidableEq, Repr

/-- Python truthiness (`not v` in src/app.py line 92 tests this):
`None`, `0`, `""` and `False` are falsy, everything else truthy. -/
def PyValue.truthy : PyValue → Bool
  | PyValue.none => false
  | PyValue.int n => n != 0
  | PyValue.str s => s != ""
  | PyValue.bool b => b

/-- Python `==` on the modelled fragment.  `True == 1` and `False == 0`
hold in Python; values of unrelated kinds compare unequal. -/
def pyEq : PyValue → PyValue → Bool
  | PyValue.none, PyValue.none => true
  | PyValue.int a, PyValue.int b => a == b
  | PyValue.str a, PyValue.str b => a == b
  | PyValue.bool a, PyValue.bool b => a == b
  | PyValue.bool a, PyValue.int b => (if a then (1 : Int) else 0) == b
  | PyValue.int a, PyValue.bool b => a == (if b then (1 : Int) else 0)
  | _, _ => false

/-- A Python value as stored in an INTEGER-affinity SQLite column such
as `dispensers.id`: booleans are stored as the integers 1 and 0, other
values are stored unchanged. -/
def sqlValue : PyValue → PyValue
  | PyValue.bool b => PyValue.int (if b then 1 else 0)
  | v => v

/-- A decoded JSON event: a finite map from field names to values,
modelled as an association list (JSON objects have no duplicate keys). -/
abbrev Event := List (String × PyValue)

/-- `event.get(k)` (src/app.py lines 87–89): dict lookup that yields
`None` when the key is absent, so an absent field and an explicit
`null` field are indistinguishable downstream. -/
def getField (e : Event) (k : String) : PyValue :=
  (List.lookup k e).getD PyValue.none

/-- The `Dispenser` model (src/app.py lines 26–42): id, display name,
total capacity and number of already dispensed items.  The id column
receives `event["id"]` and is declared `primary_key=True` (src/app.py
line 33), so the `dispensers` table can never hold two rows with the
same stored id: committing a second row with an existing id raises
IntegrityError.  A row here is one record of that table, its id the
stored (integer-affinity) column value. -/
structure Dispenser where
  id : PyValue
  name : String
  capacity : Int
  dispensed : Int
deriving DecidableEq, Repr

/-- Observable state of the gateway: the Device Registry (rows of the
`dispensers` table, in insertion order), the trace of handlers that ran
(each handler opening `logger.info("Processing ...")`), the warnings
emitted on rejection (`logger.warn`, message text without the
interpolated payload), and the events handed to the Outbound Relay
(the Kafka `producer.send(type, event)`, commented out in the source). -/
structure GatewayState where
  registry : List Dispenser
  handled : List String
  warnings : List String
  relayed : List (String × Event)
deriving DecidableEq, Repr

/-- Append a rejection warning (src/app.py `app.logger.warn`). -/
def GatewayState.warn (s : GatewayState) (m : String) : GatewayState :=
  { s with warnings := s.warnings ++ [m] }

/-- Record that the handler for event type `m` was dispatched. -/
def GatewayState.markHandled (s : GatewayState) (m : String) : GatewayState :=
  { s with handled := s.handled ++ [m] }

/-- The hardcoded credential table `permitted_devices = {1: "42x5yz"}`
(src/app.py line 74). -/
def permitted_devices : List (PyValue × PyValue) :=
  [(PyValue.int 1, PyValue.str "42x5yz")]

/-- Python `dict.get(k)`: first entry whose key compares `==` to `k`,
`None` when no entry matches. -/
def dictGet (d : List (PyValue × PyValue)) (k : PyValue) : PyValue :=
  ((d.find? (fun p => pyEq p.1 k)).map Prod.snd).getD PyValue.none

/-- `permitted(id, token)` (src/app.py lines 62–76): exact match of the
presented token against the stored token for `id`; an unknown id yields
`None`, which never equals a truthy token. -/
def permitted (id token : PyValue) : Bool :=
  pyEq (dictGet permitted_devices id) token

/-- `legal_types` (src/app.py line 97). -/
def legal_types : List String :=
  ["STARTUP", "DISPENSE", "REFILL", "REFILLED", "EMPTY"]

/-- `type in legal_types` (src/app.py line 98): Python list membership
via `==` against each element. -/
def typeLegal (ty : PyValue) : Bool :=
  legal_types.any (fun t => pyEq ty (PyValue.str t))

/-- `handle_startup` (src/app.py lines 124–137): adds a new
`Dispenser(event["id"], "Another Dispenser", 20, 0)` row.  The handler
itself performs no idempotence check, but the id column is the table
primary key (src/app.py line 33): when a row with the same stored id
already exists, the INSERT violates the UNIQUE constraint and
`db.session.commit()` (src/app.py line 130) raises IntegrityError —
the row is not added and the exception escapes the handler.  Returns
`some exceptionName` in that case, `Option.none` on success; the
opening log line has already run either way. -/
def handle_startup (event : Event) (s : GatewayState) :
    Option String × GatewayState :=
  let s1 := s.markHandled "STARTUP"
  let newId := sqlValue (getField event "id")
  if s1.registry.any (fun d => d.id == newId) then
    (some "IntegrityError", s1)
  else
    (Option.none, { s1 with registry := s1.registry ++
        [{ id := newId, name := "Another Dispenser",
           capacity := 20, dispensed := 0 }] })

/-- `handle_dispense` (src/app.py lines 140–142): logs and returns —
a no-op on the registry. -/
def handle_dispense (_event : Event) (s : GatewayState) : GatewayState :=
  s.markHandled "DISPENSE"

/-- `handle_refill_request` (src/app.py lines 145–147): no-op stub. -/
def handle_refill_request (_event : Event) (s : GatewayState) : GatewayState :=
  s.markHandled "REFILL"

/-- `handle_refilled` (src/app.py lines 150–151): no-op stub. -/
def handle_refilled (_event : Event) (s : GatewayState) : GatewayState :=
  s.markHandled "REFILLED"

/-- `handle_empty` (src/app.py lines 154–155): no-op stub. -/
def handle_empty (_event : Event) (s : GatewayState) : GatewayState :=
  s.markHandled "EMPTY"

/-- How a run of `process_event` ends in Python: a normal return, a
Flask `abort(n)`, or an unhandled exception propagating out. -/
inductive PyResult where
  | ok
  | httpAbort (status : Nat)
  | exn (e : String)
deriving DecidableEq, Repr

/-- `process_event` (src/app.py lines 79–121), together with the
resulting state.  An IntegrityError raised inside `handle_startup`
propagates out uncaught.  The Kafka send at line 121 is commented out
in the source, so `relayed` is never touched. -/
def process_event (event : Event) (s : GatewayState) :
    PyResult × GatewayState :=
  let id := getField event "id"
  let token := getField event "token"
  let ty := getField event "type"
  if !id.truthy || !token.truthy || !ty.truthy then
    (PyResult.httpAbort 400, s.warn "Required field absent")
  else if !typeLegal ty then
    (PyResult.httpAbort 400, s.warn "Invalid event type")
  else if !permitted id token then
    (PyResult.httpAbort 401, s.warn "Invalid authentication token")
  else if pyEq ty (PyValue.str "STARTUP") then
    match handle_startup event s with
    | (some e, s2) => (PyResult.exn e, s2)
    | (Option.none, s2) => (PyResult.ok, s2)
  else if pyEq ty (PyValue.str "DISPENSE") then
    (PyResult.ok, handle_dispense event s)
  else if pyEq ty (PyValue.str "REFILL") then
    (PyResult.ok, handle_refill_request event s)
  else if pyEq ty (PyValue.str "REFILLED") then
    (PyResult.ok, handle_refilled event s)
  else if pyEq ty (PyValue.str "EMPTY") then
    (PyResult.ok, handle_empty event s)
  else
    (PyResult.ok, s)

/-- HTTP response of the POST branch of `index` (src/app.py lines
53–56): an empty-body success, or the status raised by `abort`. -/
inductive Outcome where
  | ok (body : String)
  | httpError (status : Nat)
deriving DecidableEq, Repr

/-- The POST branch of `index` (src/app.py lines 53–56): run
`process_event`; a normal return produces the empty body with 200, an
`abort` produces the corresponding error status, and an exception the
view does not catch is turned by Flask into the 500 Internal Server
Error response. -/
def index_post (event : Event) (s : GatewayState) : Outcome × GatewayState :=
  match process_event event s with
  | (PyResult.ok, s1) => (Outcome.ok "", s1)
  | (PyResult.httpAbort n, s1) => (Outcome.httpError n, s1)
  | (PyResult.exn _, s1) => (Outcome.httpError 500, s1)

/-- The empty initial state: no registered dispensers, nothing logged,
nothing relayed. -/
def initialState : GatewayState :=
  { registry := [], handled := [], warnings := [], relayed := [] }

/-- The state component of the POST response is exactly the state left
by `process_event`, whichever branch was taken. -/
theorem index_post_snd (ev : Event) (s : GatewayState) :
    (index_post ev s).2 = (process_event ev s).2 := by
  unfold index_post
  cases h : process_event ev s with
  | mk o s1 => cases o <;> simp

/-- Registry evolution: any processed event either leaves the Device
Registry unchanged (every rejection, every stub handler, and the
IntegrityError path of STARTUP), or — only when the id field is truthy
and the STARTUP insert committed — appends exactly one record carrying
the stored id of the event, the fixed name, capacity 20 and
dispensed 0. -/
theorem process_event_registry_shape (ev : Event) (s : GatewayState) :
    (process_event ev s).2.registry = s.registry ∨
    ((getField ev "id").truthy = true ∧
      (process_event ev s).2.registry = s.registry ++
        [{ id := sqlValue (getField ev "id"), name := "Another Dispenser",
           capacity := 20, dispensed := 0 }]) := by
  unfold process_event handle_startup
  dsimp only
  split_ifs with h1 h2 h3 h4 h5 h6 h7 h8 h9 <;>
    simp_all [GatewayState.warn, GatewayState.markHandled,
      handle_dispense, handle_refill_request, handle_refilled, handle_empty]

/-- C1: every event with id 1, token "42x5yz" and type STARTUP,
arriving when no record for id 1 exists, is accepted with the empty
200 success body, and afterwards the Device Registry contains a record
for id 1 with dispensed 0 and the fixed default capacity 20. -/
theorem C1_startup_registers (ev : Event) (s : GatewayState)
    (hid : getField ev "id" = PyValue.int 1)
    (htok : getField ev "token" = PyValue.str "42x5yz")
    (hty : getField ev "type" = PyValue.str "STARTUP")
    (hfresh : ∀ d ∈ s.registry, d.id ≠ PyValue.int 1) :
    (index_post ev s).1 = Outcome.ok "" ∧
    ∃ d ∈ (index_post ev s).2.registry,
      d.id = PyValue.int 1 ∧ d.dispensed = 0 ∧ d.capacity = 20 := by
  have hnodup : ¬ ∃ x ∈ s.registry, x.id = PyValue.int 1 := by
    rintro ⟨x, hx, hx1⟩
    exact hfresh x hx hx1
  simp [index_post, process_event, hid, htok, hty, PyValue.truthy, typeLegal,
    legal_types, pyEq, permitted, dictGet, permitted_devices, handle_startup,
    hnodup, sqlValue, GatewayState.markHandled]
  exact ⟨_, Or.inr rfl, rfl, rfl, rfl⟩

/-- Python `None` never compares equal (`==`) to a truthy value. -/
theorem pyEq_none_not_truthy (t : PyValue) (h : t.truthy = true) :
    pyEq PyValue.none t = false := by
  cases t <;> simp_all [pyEq, PyValue.truthy]

/-- C2 (amended): a valid, authenticated STARTUP event whose id
already has a record in the Device Registry does NOT create a
duplicate — the id column is the table primary key (src/app.py line
33), so the second INSERT violates the UNIQUE constraint,
`db.session.commit()` (src/app.py line 130) raises IntegrityError, the
request ends in the 500 response Flask gives an unhandled exception,
and the registry is unchanged: it never holds two records sharing one
id. -/
theorem C2_startup_integrity_error (ev : Event) (s : GatewayState)
    (hid : (getField ev "id").truthy = true)
    (htok : (getField ev "token").truthy = true)
    (hty : getField ev "type" = PyValue.str "STARTUP")
    (hperm : permitted (getField ev "id") (getField ev "token") = true)
    (d0 : Dispenser) (hd0 : d0 ∈ s.registry)
    (hsame : d0.id = sqlValue (getField ev "id")) :
    (index_post ev s).1 = Outcome.httpError 500 ∧
    (index_post ev s).2.registry = s.registry := by
  have hS : (PyValue.str "STARTUP").truthy = true := rfl
  have hdup : s.registry.any
      (fun d => d.id == sqlValue (getField ev "id")) = true :=
    List.any_eq_true.mpr ⟨d0, hd0, by simp [hsame]⟩
  simp [index_post, process_event, handle_startup, hid, htok, hty, hS, hperm,
    typeLegal, legal_types, pyEq, hdup, GatewayState.markHandled]

/-- C3: every event in which at least one of id, token, type is
absent, null or the empty string is rejected with status 400 as a
missing field; the registry is untouched, no handler is dispatched, no
relay call is made, and the only new log entry is the missing-field
warning. -/
theorem C3_missing_field_rejected (ev : Event) (s : GatewayState)
    (h : getField ev "id" = PyValue.none ∨ getField ev "id" = PyValue.str "" ∨
         getField ev "token" = PyValue.none ∨ getField ev "token" = PyValue.str "" ∨
         getField ev "type" = PyValue.none ∨ getField ev "type" = PyValue.str "") :
    (index_post ev s).1 = Outcome.httpError 400 ∧
    (index_post ev s).2.registry = s.registry ∧
    (index_post ev s).2.handled = s.handled ∧
    (index_post ev s).2.relayed = s.relayed ∧
    (index_post ev s).2.warnings = s.warnings ++ ["Required field absent"] := by
  have hfire : (!(getField ev "id").truthy || !(getField ev "token").truthy ||
      !(getField ev "type").truthy) = true := by
    rcases h with h|h|h|h|h|h <;> simp [h, PyValue.truthy]
  simp [index_post, process_event, hfire, GatewayState.warn]

/-- C4: every event whose id, token and type are present (truthy) but
whose type is not one of STARTUP, DISPENSE, REFILL, REFILLED, EMPTY is
rejected with status 400 as an illegal type; the warning logged is the
invalid-type one (not the authentication one), so the rejection occurs
before authentication is consulted, and no registry mutation, handler
dispatch or relay call happens. -/
theorem C4_illegal_type_rejected (ev : Event) (s : GatewayState)
    (hid : (getField ev "id").truthy = true)
    (htok : (getField ev "token").truthy = true)
    (htyt : (getField ev "type").truthy = true)
    (hill : typeLegal (getField ev "type") = false) :
    (index_post ev s).1 = Outcome.httpError 400 ∧
    (index_post ev s).2.registry = s.registry ∧
    (index_post ev s).2.handled = s.handled ∧
    (index_post ev s).2.relayed = s.relayed ∧
    (index_post ev s).2.warnings = s.warnings ++ ["Invalid event type"] := by
  simp [index_post, process_event, hid, htok, htyt, hill, GatewayState.warn]

/-- C5: every structurally valid event whose token does not match the
token stored for its id in the credential table is rejected with
status 401; no handler runs and the Device Registry is unchanged — in
particular no record is created. -/
theorem C5_unauthenticated_rejected (ev : Event) (s : GatewayState)
    (hid : (getField ev "id").truthy = true)
    (htok : (getField ev "token").truthy = true)
    (htyt : (getField ev "type").truthy = true)
    (hlegal : typeLegal (getField ev "type") = true)
    (hperm : permitted (getField ev "id") (getField ev "token") = false) :
    (index_post ev s).1 = Outcome.httpError 401 ∧
    (index_post ev s).2.registry = s.registry ∧
    (index_post ev s).2.handled = s.handled ∧
    (index_post ev s).2.relayed = s.relayed ∧
    (index_post ev s).2.warnings = s.warnings ++ ["Invalid authentication token"] := by
  simp [index_post, process_event, hid, htok, htyt, hlegal, hperm, GatewayState.warn]

/-- C6 (two-run property): an event whose id has a credential entry
but a mismatched token and an event whose id has no credential entry
at all receive the identical 401 rejection — the same response and the
same resulting state — so the response reveals nothing about whether
the id exists. -/
theorem C6_auth_failure_uniform (ev1 ev2 : Event) (s : GatewayState)
    (h1id : (getField ev1 "id").truthy = true)
    (h1tok : (getField ev1 "token").truthy = true)
    (h1tyt : (getField ev1 "type").truthy = true)
    (h1legal : typeLegal (getField ev1 "type") = true)
    (h2id : (getField ev2 "id").truthy = true)
    (h2tok : (getField ev2 "token").truthy = true)
    (h2tyt : (getField ev2 "type").truthy = true)
    (h2legal : typeLegal (getField ev2 "type") = true)
    (hKnown : dictGet permitted_devices (getField ev1 "id") ≠ PyValue.none)
    (hMismatch : pyEq (dictGet permitted_devices (getField ev1 "id"))
        (getField ev1 "token") = false)
    (hUnknown : dictGet permitted_devices (getField ev2 "id") = PyValue.none) :
    (index_post ev1 s).1 = Outcome.httpError 401 ∧
    (index_post ev1 s).1 = (index_post ev2 s).1 ∧
    (index_post ev1 s).2 = (index_post ev2 s).2 ∧
    (index_post ev1 s).2.registry = s.registry := by
  have hperm1 : permitted (getField ev1 "id") (getField ev1 "token") = false := by
    simp [permitted, hMismatch]
  have hperm2 : permitted (getField ev2 "id") (getField ev2 "token") = false := by
    simp [permitted, hUnknown, pyEq_none_not_truthy _ h2tok]
  simp [index_post, process_event, h1id, h1tok, h1tyt, h1legal, hperm1,
    h2id, h2tok, h2tyt, h2legal, hperm2, GatewayState.warn]

/-- Truthiness of a string value is non-emptiness of the string. -/
theorem truthy_str (t : String) : (PyValue.str t).truthy = (t != "") := rfl

/-- A truthy value is never stored as the integer 0: truthiness
excludes 0 itself, and the only boolean stored as 0 is False, which is
falsy. -/
theorem sqlValue_truthy_ne_zero (v : PyValue) (h : v.truthy = true) :
    sqlValue v ≠ PyValue.int 0 := by
  cases v <;> simp_all [sqlValue, PyValue.truthy]

/-- C7: every valid, authenticated event of type DISPENSE, REFILL,
REFILLED or EMPTY is accepted but leaves every record of the Device
Registry unchanged (the per-type handlers are no-op stubs). -/
theorem C7_stub_handlers_no_mutation (ev : Event) (s : GatewayState)
    (hid : (getField ev "id").truthy = true)
    (htok : (getField ev "token").truthy = true)
    (hty : getField ev "type" = PyValue.str "DISPENSE" ∨
           getField ev "type" = PyValue.str "REFILL" ∨
           getField ev "type" = PyValue.str "REFILLED" ∨
           getField ev "type" = PyValue.str "EMPTY")
    (hperm : permitted (getField ev "id") (getField ev "token") = true) :
    (index_post ev s).1 = Outcome.ok "" ∧
    (index_post ev s).2.registry = s.registry ∧
    (index_post ev s).2.relayed = s.relayed ∧
    (index_post ev s).2.warnings = s.warnings := by
  rcases hty with h|h|h|h <;>
    simp [index_post, process_event, hid, htok, h, hperm, truthy_str,
      typeLegal, legal_types, pyEq, handle_dispense, handle_refill_request,
      handle_refilled, handle_empty, GatewayState.markHandled]

/-- C8: if every registry record satisfies 0 <= dispensed <= capacity
before an event is processed, every record still does afterwards, for
every event of every type: STARTUP only appends records with dispensed
0 and capacity 20, and nothing else mutates the fields. -/
theorem C8_invariant_preserved (ev : Event) (s : GatewayState)
    (hinv : ∀ d ∈ s.registry, 0 ≤ d.dispensed ∧ d.dispensed ≤ d.capacity) :
    ∀ d ∈ (index_post ev s).2.registry,
      0 ≤ d.dispensed ∧ d.dispensed ≤ d.capacity := by
  intro d hd
  rw [index_post_snd] at hd
  rcases process_event_registry_shape ev s with h | ⟨-, h⟩
  · exact hinv d (h ▸ hd)
  · rw [h] at hd
    rcases List.mem_append.mp hd with hmem | hmem
    · exact hinv d hmem
    · rcases List.mem_singleton.mp hmem with rfl
      exact ⟨by norm_num, by norm_num⟩

/-- C9 (two-run noninterference): two events agreeing on id, token and
type but differing in arbitrary additional payload fields produce the
same admission outcome and the same effect on the Device Registry and
the relay — handlers never read the extra fields. -/
theorem C9_payload_noninterference (ev1 ev2 : Event) (s : GatewayState)
    (hid : getField ev1 "id" = getField ev2 "id")
    (htok : getField ev1 "token" = getField ev2 "token")
    (hty : getField ev1 "type" = getField ev2 "type") :
    (index_post ev1 s).1 = (index_post ev2 s).1 ∧
    (index_post ev1 s).2.registry = (index_post ev2 s).2.registry ∧
    (index_post ev1 s).2.relayed = (index_post ev2 s).2.relayed := by
  have key : process_event ev1 s = process_event ev2 s := by
    simp only [process_event, handle_startup, handle_dispense,
      handle_refill_request, handle_refilled, handle_empty, hid, htok, hty]
  simp [index_post, key]

/-- C10: the presence check uses Python truthiness, so an event whose
id is the integer 0 — present and non-null — is rejected with status
400 as a missing field before authentication; moreover no processing
step ever adds a record with id 0, so a device with identifier 0 can
never be registered. -/
theorem C10_zero_id_rejected (ev : Event) (s : GatewayState)
    (h : getField ev "id" = PyValue.int 0) :
    (index_post ev s).1 = Outcome.httpError 400 ∧
    (index_post ev s).2.registry = s.registry ∧
    (index_post ev s).2.warnings = s.warnings ++ ["Required field absent"] ∧
    ∀ (ev' : Event) (s' : GatewayState),
      ∀ d ∈ (index_post ev' s').2.registry,
        d ∈ s'.registry ∨ d.id ≠ PyValue.int 0 := by
  refine ⟨?_, ?_, ?_, ?_⟩ <;> first
  | · simp [index_post, process_event, h, PyValue.truthy, GatewayState.warn]
  | · intro ev' s' d hd
      rw [index_post_snd] at hd
      rcases process_event_registry_shape ev' s' with hr | ⟨ht, hr⟩
      · exact Or.inl (hr ▸ hd)
      · rw [hr] at hd
        rcases List.mem_append.mp hd with hmem | hmem
        · exact Or.inl hmem
        · rcases List.mem_singleton.mp hmem with rfl
          exact Or.inr (sqlValue_truthy_ne_zero _ ht)

/-- Scenario-1 event: id 1, the stored token, type STARTUP. -/
def ev_ok_startup : Event :=
  [("id", PyValue.int 1), ("token", PyValue.str "42x5yz"),
   ("type", PyValue.str "STARTUP")]

/-- Scenario-4 event: no id field at all. -/
def ev_missing_id : Event :=
  [("token", PyValue.str "42x5yz"), ("type", PyValue.str "STARTUP")]

/-- Scenario-3 event: an illegal type. -/
def ev_bad_type : Event :=
  [("id", PyValue.int 1), ("token", PyValue.str "42x5yz"),
   ("type", PyValue.str "FOO")]

/-- Scenario-2 event: known id, wrong token. -/
def ev_wrong_token : Event :=
  [("id", PyValue.int 1), ("token", PyValue.str "wrong"),
   ("type", PyValue.str "STARTUP")]

/-- An id with no credential entry, presenting the id-1 token. -/
def ev_unknown_id : Event :=
  [("id", PyValue.int 2), ("token", PyValue.str "42x5yz"),
   ("type", PyValue.str "STARTUP")]

/-- An authenticated DISPENSE event for id 1. -/
def ev_ok_dispense : Event :=
  [("id", PyValue.int 1), ("token", PyValue.str "42x5yz"),
   ("type", PyValue.str "DISPENSE")]

/-- The scenario-1 event with an extra, unused payload field. -/
def ev_extra_payload : Event := ev_ok_startup ++ [("volume", PyValue.int 7)]

/-- A well-formed event whose id is the integer 0 (falsy in Python). -/
def ev_zero_id : Event :=
  [("id", PyValue.int 0), ("token", PyValue.str "42x5yz"),
   ("type", PyValue.str "STARTUP")]

/-- The record a successful STARTUP for id 1 puts into the registry. -/
def record1 : Dispenser :=
  { id := PyValue.int 1, name := "Another Dispenser",
    capacity := 20, dispensed := 0 }

/-- A state whose registry already holds the id-1 record. -/
def oneRecordState : GatewayState :=
  { registry := [record1], handled := [], warnings := [], relayed := [] }

/-- C1 witness: the scenario-1 input against the empty registry. -/
theorem C1_startup_registers_witness :
    (index_post ev_ok_startup initialState).1 = Outcome.ok "" ∧
    ∃ d ∈ (index_post ev_ok_startup initialState).2.registry,
      d.id = PyValue.int 1 ∧ d.dispensed = 0 ∧ d.capacity = 20 :=
  C1_startup_registers ev_ok_startup initialState (by decide) (by decide)
    (by decide) (by decide)

/-- C2 counterexample: replaying the scenario-1 STARTUP against the
registry that already holds the id-1 record refutes the original
claim — processing does not create a second record sharing the id:
it ends in the 500 IntegrityError response, the registry is unchanged,
and the number of id-1 records stays 1, not 2. -/
theorem C2_startup_duplicates_refuted :
    (index_post ev_ok_startup oneRecordState).1 = Outcome.httpError 500 ∧
    (index_post ev_ok_startup oneRecordState).2.registry =
      oneRecordState.registry ∧
    ¬ 2 ≤ (index_post ev_ok_startup oneRecordState).2.registry.countP
            (fun d => d.id == PyValue.int 1) := by
  decide

/-- C2 witness: the amended claim at the same concrete input. -/
theorem C2_startup_integrity_error_witness :
    (index_post ev_ok_startup oneRecordState).1 = Outcome.httpError 500 ∧
    (index_post ev_ok_startup oneRecordState).2.registry =
      oneRecordState.registry :=
  C2_startup_integrity_error ev_ok_startup oneRecordState (by decide)
    (by decide) (by decide) (by decide) record1 (by decide) (by decide)

/-- C3 witness: the scenario-4 input with no id field. -/
theorem C3_missing_field_rejected_witness :
    (index_post ev_missing_id initialState).1 = Outcome.httpError 400 ∧
    (index_post ev_missing_id initialState).2.registry = initialState.registry ∧
    (index_post ev_missing_id initialState).2.handled = initialState.handled ∧
    (index_post ev_missing_id initialState).2.relayed = initialState.relayed ∧
    (index_post ev_missing_id initialState).2.warnings =
      initialState.warnings ++ ["Required field absent"] :=
  C3_missing_field_rejected ev_missing_id initialState (by decide)

/-- C4 witness: the scenario-3 input with type FOO. -/
theorem C4_illegal_type_rejected_witness :
    (index_post ev_bad_type initialState).1 = Outcome.httpError 400 ∧
    (index_post ev_bad_type initialState).2.registry = initialState.registry ∧
    (index_post ev_bad_type initialState).2.handled = initialState.handled ∧
    (index_post ev_bad_type initialState).2.relayed = initialState.relayed ∧
    (index_post ev_bad_type initialState).2.warnings =
      initialState.warnings ++ ["Invalid event type"] :=
  C4_illegal_type_rejected ev_bad_type initialState (by decide) (by decide)
    (by decide) (by decide)

/-- C5 witness: the scenario-2 input with a wrong token. -/
theorem C5_unauthenticated_rejected_witness :
    (index_post ev_wrong_token initialState).1 = Outcome.httpError 401 ∧
    (index_post ev_wrong_token initialState).2.registry = initialState.registry ∧
    (index_post ev_wrong_token initialState).2.handled = initialState.handled ∧
    (index_post ev_wrong_token initialState).2.relayed = initialState.relayed ∧
    (index_post ev_wrong_token initialState).2.warnings =
      initialState.warnings ++ ["Invalid authentication token"] :=
  C5_unauthenticated_rejected ev_wrong_token initialState (by decide) (by decide)
    (by decide) (by decide) (by decide)

/-- C6 witness: wrong token for the known id 1 versus any token for
the unknown id 2. -/
theorem C6_auth_failure_uniform_witness :
    (index_post ev_wrong_token initialState).1 = Outcome.httpError 401 ∧
    (index_post ev_wrong_token initialState).1 =
      (index_post ev_unknown_id initialState).1 ∧
    (index_post ev_wrong_token initialState).2 =
      (index_post ev_unknown_id initialState).2 ∧
    (index_post ev_wrong_token initialState).2.registry = initialState.registry :=
  C6_auth_failure_uniform ev_wrong_token ev_unknown_id initialState
    (by decide) (by decide) (by decide) (by decide) (by decide) (by decide)
    (by decide) (by decide) (by decide) (by decide) (by decide)

/-- C7 witness: an authenticated DISPENSE against a one-record
registry. -/
theorem C7_stub_handlers_no_mutation_witness :
    (index_post ev_ok_dispense oneRecordState).1 = Outcome.ok "" ∧
    (index_post ev_ok_dispense oneRecordState).2.registry =
      oneRecordState.registry ∧
    (index_post ev_ok_dispense oneRecordState).2.relayed =
      oneRecordState.relayed ∧
    (index_post ev_ok_dispense oneRecordState).2.warnings =
      oneRecordState.warnings :=
  C7_stub_handlers_no_mutation ev_ok_dispense oneRecordState (by decide)
    (by decide) (by decide) (by decide)

/-- C8 witness: a STARTUP processed from the empty registry yields a
registry whose (only) record satisfies the invariant. -/
theorem C8_invariant_preserved_witness :
    0 ≤ record1.dispensed ∧ record1.dispensed ≤ record1.capacity :=
  C8_invariant_preserved ev_ok_startup initialState (by decide)
    record1 (by decide)

/-- C9 witness: the same STARTUP with and without an extra payload
field. -/
theorem C9_payload_noninterference_witness :
    (index_post ev_ok_startup initialState).1 =
      (index_post ev_extra_payload initialState).1 ∧
    (index_post ev_ok_startup initialState).2.registry =
      (index_post ev_extra_payload initialState).2.registry ∧
    (index_post ev_ok_startup initialState).2.relayed =
      (index_post ev_extra_payload initialState).2.relayed :=
  C9_payload_noninterference ev_ok_startup ev_extra_payload initialState
    (by decide) (by decide) (by decide)

/-- C10 witness: a well-formed STARTUP whose id is the integer 0. -/
theorem C10_zero_id_rejected_witness :
    (index_post ev_zero_id initialState).1 = Outcome.httpError 400 ∧
    (index_post ev_zero_id initialState).2.registry = initialState.registry ∧
    (index_post ev_zero_id initialState).2.warnings =
      initialState.warnings ++ ["Required field absent"] ∧
    ∀ (ev' : Event) (s' : GatewayState),
      ∀ d ∈ (index_post ev' s').2.registry,
        d ∈ s'.registry ∨ d.id ≠ PyValue.int 0 :=
  C10_zero_id_rejected ev_zero_id initialState (by decide)
